import Mathlib

/-!
Verification of the requests-based HTTP transport layer of this SDK:
the synchronous transport, its asyncio and trio variants, and the
streaming download generator with its retry state machine
(`azure/core/pipeline/transport/requests_basic.py`,
`requests_asyncio.py`, `requests_trio.py`).

The embedding is shallow: each relevant Python function is translated
into an executable Lean definition over explicit state.  Python's
dynamic typing matters here (the stream-retry path concatenates a
string with an integer), so the values that flow through the dynamic
operations are modelled by `PyVal` and Python's `+` by `pyAdd`, which
reports a `TypeError` as `none` on a type mismatch.
-/

namespace AzureCoreTransport

/-- Dynamically typed Python value, restricted to the three runtime types
that reach the dynamic operations of the transport code: `int`, `str`
and `bytes` (a byte string is a list of byte values). -/
inductive PyVal where
  | pyInt (n : Int)
  | pyStr (s : String)
  | pyBytes (b : List Nat)
  deriving DecidableEq

/-- Python's binary `+` on the modelled value types: `int + int`,
`str + str` and `bytes + bytes` succeed; every mixed combination raises
`TypeError`, reported as `none`. -/
def pyAdd : PyVal → PyVal → Option PyVal
  | .pyInt a, .pyInt b => some (.pyInt (a + b))
  | .pyStr a, .pyStr b => some (.pyStr (a ++ b))
  | .pyBytes a, .pyBytes b => some (.pyBytes (a ++ b))
  | _, _ => none

/-! ## Stream download generator (`requests_basic.py`, lines 79-139)

`StreamDownloadGenerator.__next__` pulls chunks from
`self.iter_content_func`, the chunk iterator of the underlying raw
response.  The successive results of calling `next` on that iterator are
modelled as a script (`pulls`): each call either returns a byte chunk,
signals `StopIteration`, or raises an exception. -/

/-- The exceptions the underlying chunk iterator can raise, grouped by the
handlers of `__next__`: `requests.exceptions.ChunkedEncodingError` and
`requests.exceptions.ConnectionError` (the transient pair, lines
116-117), `requests.exceptions.StreamConsumedError` (line 133), and any
other exception (line 135). -/
inductive StreamExc where
  | chunkedEncodingError
  | connectionError
  | streamConsumedError
  | otherError
  deriving DecidableEq

/-- One result of calling `next(self.iter_content_func)`. -/
inductive PullOutcome where
  | chunk (b : List Nat)
  | stopIteration
  | raiseExc (e : StreamExc)
  deriving DecidableEq

/-- The mutable state of a `StreamDownloadGenerator` (lines 87-94):
the remaining script of the chunk iterator, `self.downloaded`
(initialised to the `int` 0, line 94), `self.block_size` (line 91), and
a ghost counter of how many times `self.response.internal_response.close()`
has been called, used to state close-exactly-once properties. -/
structure GenState where
  pulls : List PullOutcome
  downloaded : PyVal
  blockSize : Int
  closeCount : Nat
  deriving DecidableEq

/-- What one call to `__next__` does, as seen by the caller: yield a
chunk (`return chunk`), end the iteration (`StopIteration` reaching the
caller), let a transient exception reach the caller (the bare `raise` of
line 126, or an exception escaping the handler), let
`StreamConsumedError` or another exception reach the caller, raise a
`TypeError` from a dynamic-typing fault, or return `None` by falling off
the end of the `while` loop. -/
inductive StreamOutcome where
  | yielded (b : List Nat)
  | stopped
  | raisedTransient (e : StreamExc)
  | raisedStreamConsumed
  | raisedOther
  | raisedTypeError
  | returnedNone
  deriving DecidableEq

/-- The transient-exception handler of `__next__` (lines 116-132), entered
with the current `retry_total` and the generator state after the failed
pull.  `pipelineRun` models `self.pipeline.run(self.request, stream=True,
headers=headers)` as the status code the pipeline returns for the given
range-header value.  Faithfully to the source:

* `retry_total -= 1; if retry_total <= 0:` sets `retry_active = False`
  and `continue`s: the `while` guard is then false, the loop exits, and
  `__next__` implicitly returns `None` (there is no `raise` on this path);
* otherwise, after `time.sleep(retry_interval)`, line 123 computes
  `'bytes=' + self.downloaded + '-'` left to right with Python `+`
  (`pyAdd`); since `self.downloaded` is an `int`, this is where a
  `TypeError` arises, and it propagates out of the handler uncaught;
* a 416 status from the re-issued request re-raises the pending
  transient exception (lines 125-126);
* otherwise one more chunk is pulled from the same iterator object
  `self.iter_content_func` (line 127); an exception raised by that pull
  happens inside the handler and propagates without being re-caught and
  without closing the response; an empty chunk raises `StopIteration`
  (line 129); line 130 is `self.downloaded += chunk`, Python `+` of an
  `int` and a `bytes` value. -/
def streamTransientHandler (pipelineRun : PyVal → Nat) (e : StreamExc)
    (retryTotal : Int) (st1 : GenState) : StreamOutcome × GenState :=
  let rt := retryTotal - 1
  if rt ≤ 0 then
    (.returnedNone, st1)
  else
    match pyAdd (.pyStr "bytes=") st1.downloaded with
    | none => (.raisedTypeError, st1)
    | some s1 =>
        match pyAdd s1 (.pyStr "-") with
        | none => (.raisedTypeError, st1)
        | some rangeVal =>
            let status := pipelineRun rangeVal
            if status = 416 then
              (.raisedTransient e, st1)
            else
              match st1.pulls with
              | [] => (.stopped, st1)
              | PullOutcome.stopIteration :: rest2 =>
                  (.stopped, { st1 with pulls := rest2 })
              | PullOutcome.chunk b :: rest2 =>
                  let st2 : GenState := { st1 with pulls := rest2 }
                  if b.isEmpty then (.stopped, st2)
                  else
                    match pyAdd st2.downloaded (.pyBytes b) with
                    | none => (.raisedTypeError, st2)
                    | some d => (.yielded b, { st2 with downloaded := d })
              | PullOutcome.raiseExc e2 :: rest2 =>
                  let st2 : GenState := { st1 with pulls := rest2 }
                  match e2 with
                  | StreamExc.streamConsumedError => (.raisedStreamConsumed, st2)
                  | StreamExc.otherError => (.raisedOther, st2)
                  | e2t => (.raisedTransient e2t, st2)

/-- One call to `StreamDownloadGenerator.__next__` (lines 102-139), with
the `while` loop entered at the given value of `retry_total`.  The loop
body is executed at most once: the only `continue` (line 132) is reached
after `retry_active = False`, so the guard is false on re-test and the
function returns `None`.  The body:

* `next(self.iter_content_func)` on an exhausted iterator, or the
  `StopIteration` raised for an empty chunk (lines 109-110), is caught
  at line 113: the raw response is closed and `StopIteration` is
  re-raised;
* a non-empty chunk advances `self.downloaded` by `self.block_size`
  (line 111, `int + int`) and is returned;
* the transient pair is handled by `streamTransientHandler`;
* `StreamConsumedError` is re-raised without closing (lines 133-134);
* any other exception closes the raw response and is re-raised
  (lines 135-138). -/
def streamNextWith (pipelineRun : PyVal → Nat) (retryTotal : Int)
    (st : GenState) : StreamOutcome × GenState :=
  match st.pulls with
  | [] =>
      (.stopped, { st with closeCount := st.closeCount + 1 })
  | PullOutcome.stopIteration :: rest =>
      (.stopped, { st with pulls := rest, closeCount := st.closeCount + 1 })
  | PullOutcome.chunk b :: rest =>
      if b.isEmpty then
        (.stopped, { st with pulls := rest, closeCount := st.closeCount + 1 })
      else
        match pyAdd st.downloaded (.pyInt st.blockSize) with
        | some d => (.yielded b, { st with pulls := rest, downloaded := d })
        | none => (.raisedTypeError, { st with pulls := rest })
  | PullOutcome.raiseExc e :: rest =>
      let st1 : GenState := { st with pulls := rest }
      match e with
      | StreamExc.streamConsumedError => (.raisedStreamConsumed, st1)
      | StreamExc.otherError =>
          (.raisedOther, { st1 with closeCount := st1.closeCount + 1 })
      | StreamExc.chunkedEncodingError =>
          streamTransientHandler pipelineRun StreamExc.chunkedEncodingError retryTotal st1
      | StreamExc.connectionError =>
          streamTransientHandler pipelineRun StreamExc.connectionError retryTotal st1

/-- One call to `__next__` as the source runs it: `retry_total = 3`
(line 104). -/
def streamNext (pipelineRun : PyVal → Nat) (st : GenState) :
    StreamOutcome × GenState :=
  streamNextWith pipelineRun 3 st

/-! ## Transport `send` error classification

`RequestsTransport.send` (`requests_basic.py`, lines 217-263),
`AsyncioRequestsTransport.send` (`requests_asyncio.py`, lines 84-134)
and `TrioRequestsTransport.send` (`requests_trio.py`, lines 145-195)
each guard the underlying `session.request` call with the same chain of
exception handlers.  The low-level exceptions that chain distinguishes
are modelled by `LowExc`; the `args` of a
`requests.exceptions.ConnectionError` are modelled by the list of
booleans saying, per positional argument, whether it is an instance of
`urllib3.exceptions.ProtocolError`. -/

/-- A low-level exception escaping the underlying HTTP call, one
constructor per case the handler chains distinguish:
`urllib3.exceptions.NewConnectionError`,
`requests.exceptions.ReadTimeout`,
`requests.exceptions.ConnectionError` (with its `args`),
`requests.exceptions.ChunkedEncodingError`,
`requests.exceptions.StreamConsumedError`, any other
`requests.RequestException`, and an exception outside the `requests`
exception hierarchy (matched by no handler). -/
inductive LowExc where
  | newConnectionError
  | readTimeout
  | connectionError (args : List Bool)
  | chunkedEncodingError
  | streamConsumedError
  | otherRequestException
  | nonRequestsException
  deriving DecidableEq

/-- The test `err.args and isinstance(err.args[0], ProtocolError)`
(`requests_basic.py` line 254): false for empty `args`, else whether the
first argument is a `ProtocolError`. -/
def argsFirstProtocol : List Bool → Bool
  | [] => false
  | a :: _ => a

/-- The two error kinds of `azure.core.exceptions`, each carrying the
originating low-level error (both constructors receive `err` as the
`error` keyword).  Modelled from the spec: `azure/core/exceptions.py`
is not among the staged source files; spec section 7 describes exactly
two kinds, `ServiceRequestError` and `ServiceResponseError`, "both
carrying the originating low-level error". -/
inductive ServiceErr where
  | serviceRequestError (carried : LowExc)
  | serviceResponseError (carried : LowExc)
  deriving DecidableEq

/-- The handler chain of `RequestsTransport.send` (`requests_basic.py`
lines 249-259): which service error, if any, is assigned for a given
low-level exception (`none` means no handler matches and the exception
propagates raw). -/
def classifySendSync : LowExc → Option ServiceErr
  | .newConnectionError => some (.serviceRequestError .newConnectionError)
  | .readTimeout => some (.serviceResponseError .readTimeout)
  | .connectionError args =>
      if argsFirstProtocol args then
        some (.serviceResponseError (.connectionError args))
      else
        some (.serviceRequestError (.connectionError args))
  | .chunkedEncodingError => some (.serviceRequestError .chunkedEncodingError)
  | .streamConsumedError => some (.serviceRequestError .streamConsumedError)
  | .otherRequestException => some (.serviceRequestError .otherRequestException)
  | .nonRequestsException => none

/-- The handler chain of `AsyncioRequestsTransport.send`
(`requests_asyncio.py` lines 119-129), transcribed from that file. -/
def classifySendAsyncio : LowExc → Option ServiceErr
  | .newConnectionError => some (.serviceRequestError .newConnectionError)
  | .readTimeout => some (.serviceResponseError .readTimeout)
  | .connectionError args =>
      if argsFirstProtocol args then
        some (.serviceResponseError (.connectionError args))
      else
        some (.serviceRequestError (.connectionError args))
  | .chunkedEncodingError => some (.serviceRequestError .chunkedEncodingError)
  | .streamConsumedError => some (.serviceRequestError .streamConsumedError)
  | .otherRequestException => some (.serviceRequestError .otherRequestException)
  | .nonRequestsException => none

/-- The handler chain of `TrioRequestsTransport.send`
(`requests_trio.py` lines 180-190), transcribed from that file. -/
def classifySendTrio : LowExc → Option ServiceErr
  | .newConnectionError => some (.serviceRequestError .newConnectionError)
  | .readTimeout => some (.serviceResponseError .readTimeout)
  | .connectionError args =>
      if argsFirstProtocol args then
        some (.serviceResponseError (.connectionError args))
      else
        some (.serviceRequestError (.connectionError args))
  | .chunkedEncodingError => some (.serviceRequestError .chunkedEncodingError)
  | .streamConsumedError => some (.serviceRequestError .streamConsumedError)
  | .otherRequestException => some (.serviceRequestError .otherRequestException)
  | .nonRequestsException => none

/-! ## Building the `session.request` call -/

/-- The request object as `send` reads it: `request.method`,
`request.url`, `request.headers`, `request.data`, `request.files`
(`requests_basic.py` lines 238-242). -/
structure HttpReq where
  method : String
  url : String
  headers : List (String × String)
  data : PyVal
  files : PyVal
  deriving DecidableEq

/-- Modelled from the spec: `ConnectionConfiguration`
(`azure/core/configuration.py`) is not among the staged source files;
spec section 3 gives its fields as the verify-TLS flag, the timeout, the
client certificate reference and the streaming block size, read-only to
the transport. -/
structure ConnectionCfg where
  verify : PyVal
  timeout : PyVal
  cert : PyVal
  dataBlockSize : Int
  deriving DecidableEq

/-- The raw response the HTTP library returns, as the wrapper reads it:
`status_code`, `headers`, `reason`. -/
structure RawResponse where
  statusCode : Nat
  respHeaders : List (String × String)
  reason : String
  deriving DecidableEq

/-- `headers.get(key)` on a header mapping modelled as an association
list (the first binding of the key, `none` when absent). -/
def headersGet (hs : List (String × String)) (key : String) : Option String :=
  (hs.find? fun p => p.1 == key).map Prod.snd

/-- The transport response wrapper built by
`_RequestsTransportResponseBase.__init__` (`requests_basic.py` lines
63-68): captures `status_code`, `headers`, `reason` and
`headers.get('content-type')` from the raw response at construction
time, plus the block size the transport passes. -/
structure TransportResponse where
  statusCode : Nat
  respHeaders : List (String × String)
  reason : String
  contentType : Option String
  blockSize : Int
  deriving DecidableEq

/-- Construction of the response wrapper from the raw response
(`requests_basic.py` lines 63-68 and 263). -/
def wrapResponse (raw : RawResponse) (blockSize : Int) : TransportResponse :=
  { statusCode := raw.statusCode, respHeaders := raw.respHeaders,
    reason := raw.reason,
    contentType := headersGet raw.respHeaders "content-type",
    blockSize := blockSize }

/-- The keyword options a caller passes to `send` (`**kwargs`),
modelled as an association list with distinct keys, as a `dict` is. -/
abbrev Kwargs := List (String × PyVal)

/-- `kwargs.pop(key, default)`: the bound value and the mapping without
the key, or the default and the unchanged mapping. -/
def popKw (key : String) (dflt : PyVal) (kw : Kwargs) : PyVal × Kwargs :=
  match kw.find? (fun p => p.1 == key) with
  | some p => (p.2, kw.filter (fun q => q.1 != key))
  | none => (dflt, kw)

/-- The full argument list of the `session.request` call: the explicit
keywords of the source plus the remaining `**kwargs` passed through
unmodified. -/
structure SendCallArgs where
  method : String
  url : String
  headers : List (String × String)
  data : PyVal
  files : PyVal
  verify : PyVal
  timeout : PyVal
  cert : PyVal
  allowRedirects : Bool
  extra : Kwargs
  deriving DecidableEq

/-- The parameter names `session.request` is already given explicitly in
the source call; a remaining `**kwargs` entry with one of these names
makes Python raise `TypeError` (multiple values for a keyword argument)
before any HTTP call is issued. -/
def reservedSendKeywords : List String :=
  ["method", "url", "headers", "data", "files", "verify", "timeout",
   "cert", "allow_redirects"]

/-- Argument construction of `RequestsTransport.send`
(`requests_basic.py` lines 237-247): pop `connection_verify`,
`connection_timeout` and `connection_cert` from `kwargs` with the
connection configuration as default, fix `allow_redirects=False`, and
pass everything left in `kwargs` straight through.  `none` models the
`TypeError` for a duplicated explicit keyword. -/
def buildSendArgsSync (cfg : ConnectionCfg) (req : HttpReq)
    (kwargs : Kwargs) : Option SendCallArgs :=
  let pv := popKw "connection_verify" cfg.verify kwargs
  let pt := popKw "connection_timeout" cfg.timeout pv.2
  let pc := popKw "connection_cert" cfg.cert pt.2
  if pc.2.any (fun p => reservedSendKeywords.contains p.1) then none
  else some { method := req.method, url := req.url, headers := req.headers,
              data := req.data, files := req.files, verify := pv.1,
              timeout := pt.1, cert := pc.1, allowRedirects := false,
              extra := pc.2 }

/-- Argument construction of `AsyncioRequestsTransport.send`
(`requests_asyncio.py` lines 106-117), transcribed from that file. -/
def buildSendArgsAsyncio (cfg : ConnectionCfg) (req : HttpReq)
    (kwargs : Kwargs) : Option SendCallArgs :=
  let pv := popKw "connection_verify" cfg.verify kwargs
  let pt := popKw "connection_timeout" cfg.timeout pv.2
  let pc := popKw "connection_cert" cfg.cert pt.2
  if pc.2.any (fun p => reservedSendKeywords.contains p.1) then none
  else some { method := req.method, url := req.url, headers := req.headers,
              data := req.data, files := req.files, verify := pv.1,
              timeout := pt.1, cert := pc.1, allowRedirects := false,
              extra := pc.2 }

/-- Argument construction of `TrioRequestsTransport.send`
(`requests_trio.py` lines 166-177), transcribed from that file. -/
def buildSendArgsTrio (cfg : ConnectionCfg) (req : HttpReq)
    (kwargs : Kwargs) : Option SendCallArgs :=
  let pv := popKw "connection_verify" cfg.verify kwargs
  let pt := popKw "connection_timeout" cfg.timeout pv.2
  let pc := popKw "connection_cert" cfg.cert pt.2
  if pc.2.any (fun p => reservedSendKeywords.contains p.1) then none
  else some { method := req.method, url := req.url, headers := req.headers,
              data := req.data, files := req.files, verify := pv.1,
              timeout := pt.1, cert := pc.1, allowRedirects := false,
              extra := pc.2 }

/-- What the underlying `session.request` call does for the issued
argument list: return a raw response or raise a low-level exception. -/
inductive SessionOutcome where
  | ok (raw : RawResponse)
  | exc (e : LowExc)

/-- What a `send` call does, as seen by the caller. -/
inductive SendResult where
  | returned (resp : TransportResponse)
  | raisedErr (e : ServiceErr)
  | uncaughtExc (e : LowExc)
  | typeErrorKeyword
  deriving DecidableEq

/-- `RequestsTransport.send` after the session is open
(`requests_basic.py` lines 233-263): build the `session.request`
arguments, run the call, and either wrap the raw response
(`RequestsTransportResponse`, line 263) or classify the exception
through the handler chain and raise the assigned error (`if error:
raise error`, lines 261-262). -/
def sendCoreSync (cfg : ConnectionCfg) (req : HttpReq) (kwargs : Kwargs)
    (session : SendCallArgs → SessionOutcome) : SendResult :=
  match buildSendArgsSync cfg req kwargs with
  | none => .typeErrorKeyword
  | some args =>
      match session args with
      | .ok raw => .returned (wrapResponse raw cfg.dataBlockSize)
      | .exc e =>
          match classifySendSync e with
          | some err => .raisedErr err
          | none => .uncaughtExc e

/-- `AsyncioRequestsTransport.send` after the session is open
(`requests_asyncio.py` lines 101-134); the blocking call runs in an
executor, its result or exception is what the awaiting caller sees. -/
def sendCoreAsyncio (cfg : ConnectionCfg) (req : HttpReq) (kwargs : Kwargs)
    (session : SendCallArgs → SessionOutcome) : SendResult :=
  match buildSendArgsAsyncio cfg req kwargs with
  | none => .typeErrorKeyword
  | some args =>
      match session args with
      | .ok raw => .returned (wrapResponse raw cfg.dataBlockSize)
      | .exc e =>
          match classifySendAsyncio e with
          | some err => .raisedErr err
          | none => .uncaughtExc e

/-- `TrioRequestsTransport.send` after the session is open
(`requests_trio.py` lines 162-195); the blocking call runs in a worker
thread, its result or exception is what the awaiting caller sees. -/
def sendCoreTrio (cfg : ConnectionCfg) (req : HttpReq) (kwargs : Kwargs)
    (session : SendCallArgs → SessionOutcome) : SendResult :=
  match buildSendArgsTrio cfg req kwargs with
  | none => .typeErrorKeyword
  | some args =>
      match session args with
      | .ok raw => .returned (wrapResponse raw cfg.dataBlockSize)
      | .exc e =>
          match classifySendTrio e with
          | some err => .raisedErr err
          | none => .uncaughtExc e

/-- The failure classification exactly as the claim and spec section
4.3 state it, written from the spec side for comparison with the three
transcribed `send` implementations: connection establishment failure
(`NewConnectionError`) raises `ServiceRequestError`; a read timeout
raises `ServiceResponseError`; a connection-level error whose first
argument is a protocol-level error raises `ServiceResponseError`; any
other connection-level error or general request exception raises
`ServiceRequestError`; each raised error carries the originating
low-level error; an exception outside the hierarchy propagates raw. -/
def specSendClassification : LowExc → SendResult
  | .newConnectionError =>
      .raisedErr (.serviceRequestError .newConnectionError)
  | .readTimeout => .raisedErr (.serviceResponseError .readTimeout)
  | .connectionError args =>
      if argsFirstProtocol args then
        .raisedErr (.serviceResponseError (.connectionError args))
      else
        .raisedErr (.serviceRequestError (.connectionError args))
  | .chunkedEncodingError =>
      .raisedErr (.serviceRequestError .chunkedEncodingError)
  | .streamConsumedError =>
      .raisedErr (.serviceRequestError .streamConsumedError)
  | .otherRequestException =>
      .raisedErr (.serviceRequestError .otherRequestException)
  | .nonRequestsException => .uncaughtExc .nonRequestsException

/-! ## Transport session lifecycle (`requests_basic.py`, lines 179-215, 232) -/

/-- The session-lifecycle state of a `RequestsTransport`:
`self.session` (a pooled session or `None`) and `self._session_owner`. -/
structure RTransport where
  session : Option Unit
  sessionOwner : Bool
  deriving DecidableEq

/-- `RequestsTransport.__init__` (lines 179-184): `self.session =
kwargs.get('session', None)` and `self._session_owner =
kwargs.get('session_owner', True)`; `none` for an absent keyword. -/
def initTransport (sessionKw : Option Unit) (ownerKw : Option Bool) :
    RTransport :=
  { session := sessionKw, sessionOwner := ownerKw.getD true }

/-- The Python runtime fault the lifecycle methods can raise:
an attribute access on `None`. -/
inductive PyFault where
  | attributeError
  deriving DecidableEq

/-- `RequestsTransport.open` (lines 206-209): `if not self.session and
self._session_owner:` create and initialise a fresh session.  The
boolean of the result records whether a session was created. -/
def openTransport (t : RTransport) : RTransport × Bool :=
  if t.session.isNone && t.sessionOwner then
    ({ session := some (), sessionOwner := t.sessionOwner }, true)
  else (t, false)

/-- `RequestsTransport.close` (lines 211-215): when the transport owns
the session, call `self.session.close()` (an `AttributeError` when
`self.session` is `None`), clear the ownership flag and the session.
The natural number of the result counts how many times
`session.close()` was called. -/
def closeTransport (t : RTransport) : Except PyFault (RTransport × Nat) :=
  if t.sessionOwner then
    match t.session with
    | none => .error .attributeError
    | some _ => .ok ({ session := none, sessionOwner := false }, 1)
  else .ok (t, 0)

/-- The opening of `RequestsTransport.send` (lines 232 and 237):
`self.open()` followed by the attribute access `self.session.request`,
which raises `AttributeError` when `self.session` is still `None`.
On success the transport state in which the request is issued is
returned. -/
def sendAcquireSession (t : RTransport) : Except PyFault RTransport :=
  let t1 := (openTransport t).1
  match t1.session with
  | none => .error .attributeError
  | some _ => .ok t1

/-! ## Claim theorems -/

/-- C1: for every call to `send` in the sync, asyncio and trio variants,
the low-level exception escaping the underlying HTTP call determines the
raised error exactly as claimed: `NewConnectionError` raises
`ServiceRequestError`; a read timeout raises `ServiceResponseError`; a
connection-level error whose first argument is a protocol-level error
raises `ServiceResponseError`; any other connection-level error or
general request exception raises `ServiceRequestError`; each raised
error carries the originating low-level error. -/
theorem c1_send_error_classification (e : LowExc) (cfg : ConnectionCfg)
    (req : HttpReq) :
    sendCoreSync cfg req [] (fun _ => SessionOutcome.exc e)
        = specSendClassification e
    ∧ sendCoreAsyncio cfg req [] (fun _ => SessionOutcome.exc e)
        = specSendClassification e
    ∧ sendCoreTrio cfg req [] (fun _ => SessionOutcome.exc e)
        = specSendClassification e := by
  refine ⟨?_, ?_, ?_⟩ <;> cases e <;>
    first
      | rfl
      | (rename_i args
         cases h : argsFirstProtocol args <;>
           simp [sendCoreSync, sendCoreAsyncio, sendCoreTrio,
             buildSendArgsSync, buildSendArgsAsyncio, buildSendArgsTrio,
             popKw, classifySendSync, classifySendAsyncio, classifySendTrio,
             specSendClassification, h])

/-- C2: the claim says that when the next-chunk pull fails with a
transient error on 3 consecutive attempts, the exhausting call re-raises
the original transient error and closes the raw response exactly once.
The code does neither: with budget remaining the handler raises
`TypeError` at the range-header concatenation before any second attempt
can happen (so three consecutive failures never occur within one call,
whose `retry_total` is a local reset to 3), and the exhaustion branch
itself exits the `while` loop so that `__next__` returns `None` without
re-raising and without closing.  Evaluated here on a generator whose
pulls raise `ConnectionError`. -/
theorem c2_retry_exhaustion_silently_returns_none :
    (streamNext (fun _ => 200)
      { pulls := [PullOutcome.raiseExc StreamExc.connectionError,
                  PullOutcome.raiseExc StreamExc.connectionError,
                  PullOutcome.raiseExc StreamExc.connectionError],
        downloaded := PyVal.pyInt 0, blockSize := 4, closeCount := 0 }).1
      = StreamOutcome.raisedTypeError
    ∧ (streamNext (fun _ => 200)
      { pulls := [PullOutcome.raiseExc StreamExc.connectionError,
                  PullOutcome.raiseExc StreamExc.connectionError,
                  PullOutcome.raiseExc StreamExc.connectionError],
        downloaded := PyVal.pyInt 0, blockSize := 4, closeCount := 0 }).2.closeCount
      = 0
    ∧ (streamNextWith (fun _ => 200) 1
      { pulls := [PullOutcome.raiseExc StreamExc.connectionError],
        downloaded := PyVal.pyInt 0, blockSize := 4, closeCount := 0 }).1
      = StreamOutcome.returnedNone
    ∧ (streamNextWith (fun _ => 200) 1
      { pulls := [PullOutcome.raiseExc StreamExc.connectionError],
        downloaded := PyVal.pyInt 0, blockSize := 4, closeCount := 0 }).2.closeCount
      = 0 :=
  ⟨rfl, rfl, rfl, rfl⟩

/-- C3: the claim says a transient failure with budget remaining
reissues the request with header `Range: bytes=N-`.  The code computes
the header value as `'bytes=' + self.downloaded + '-'` with
`self.downloaded` an `int`, so the first concatenation raises
`TypeError` and no ranged request is ever issued.  Evaluated on a
generator that failed on chunk 2 after chunk 1 of 4 bytes. -/
theorem c3_range_resume_raises_type_error :
    pyAdd (PyVal.pyStr "bytes=") (PyVal.pyInt 4) = none
    ∧ (streamNext (fun _ => 200)
      { pulls := [PullOutcome.raiseExc StreamExc.connectionError,
                  PullOutcome.chunk [5, 6, 7, 8]],
        downloaded := PyVal.pyInt 4, blockSize := 4, closeCount := 0 }).1
      = StreamOutcome.raisedTypeError :=
  ⟨rfl, rfl⟩

/-- C4: the claim says the downloaded-byte counter equals the bytes
actually returned to the caller.  The code advances the counter by
`self.block_size` per emitted chunk: after emitting a 2-byte chunk with
block size 4 the counter is 4, not 2. -/
theorem c4_downloaded_counts_block_size_not_bytes :
    (streamNext (fun _ => 200)
      { pulls := [PullOutcome.chunk [104, 105]],
        downloaded := PyVal.pyInt 0, blockSize := 4, closeCount := 0 }).1
      = StreamOutcome.yielded [104, 105]
    ∧ (streamNext (fun _ => 200)
      { pulls := [PullOutcome.chunk [104, 105]],
        downloaded := PyVal.pyInt 0, blockSize := 4, closeCount := 0 }).2.downloaded
      = PyVal.pyInt 4
    ∧ ([104, 105] : List Nat).length = 2
    ∧ PyVal.pyInt 4 ≠ PyVal.pyInt 2 :=
  ⟨rfl, rfl, rfl, by decide⟩

/-- C5: the claim says a ranged resume that receives HTTP 416 raises the
pending transient error.  No ranged resume can receive any status: for
every pipeline behaviour `pr`, a transient failure with budget remaining
raises `TypeError` at the range-header concatenation before
`pipeline.run` is called, so the 416 check of lines 125-126 is
unreachable. -/
theorem c5_resume_416_check_unreachable (pr : PyVal → Nat) :
    (streamNextWith pr 3
      { pulls := [PullOutcome.raiseExc StreamExc.connectionError,
                  PullOutcome.chunk [1]],
        downloaded := PyVal.pyInt 0, blockSize := 4, closeCount := 0 }).1
      = StreamOutcome.raisedTypeError :=
  rfl

/-- C6: for every request and keyword-option set, the argument list the
underlying HTTP call is issued with has `allow_redirects = False` in all
three transport variants, and a response (for example a 302) is returned
to the caller wrapped as-is, with its status code and headers intact. -/
theorem c6_no_auto_redirect (cfg : ConnectionCfg) (req : HttpReq)
    (kwargs : Kwargs) (args : SendCallArgs) (raw : RawResponse)
    (hs : buildSendArgsSync cfg req kwargs = some args) :
    args.allowRedirects = false
    ∧ buildSendArgsAsyncio cfg req kwargs = some args
    ∧ buildSendArgsTrio cfg req kwargs = some args
    ∧ sendCoreSync cfg req kwargs (fun _ => SessionOutcome.ok raw)
        = SendResult.returned (wrapResponse raw cfg.dataBlockSize)
    ∧ sendCoreAsyncio cfg req kwargs (fun _ => SessionOutcome.ok raw)
        = SendResult.returned (wrapResponse raw cfg.dataBlockSize)
    ∧ sendCoreTrio cfg req kwargs (fun _ => SessionOutcome.ok raw)
        = SendResult.returned (wrapResponse raw cfg.dataBlockSize)
    ∧ (wrapResponse raw cfg.dataBlockSize).statusCode = raw.statusCode
    ∧ (wrapResponse raw cfg.dataBlockSize).respHeaders = raw.respHeaders := by
  have hb : buildSendArgsAsyncio cfg req kwargs
      = buildSendArgsSync cfg req kwargs := rfl
  have hc : buildSendArgsTrio cfg req kwargs
      = buildSendArgsSync cfg req kwargs := rfl
  refine ⟨?_, hb.trans hs, hc.trans hs, ?_, ?_, ?_, rfl, rfl⟩
  · simp only [buildSendArgsSync] at hs
    split at hs
    · exact absurd hs (by simp)
    · have h := Option.some.inj hs
      subst h
      rfl
  · unfold sendCoreSync
    rw [hs]
  · unfold sendCoreAsyncio
    rw [hb.trans hs]
  · unfold sendCoreTrio
    rw [hc.trans hs]

/-- C6 witness: the hypotheses of `c6_no_auto_redirect` discharged at a
concrete configuration, request, empty keyword set and a 302 raw
response. -/
theorem c6_no_auto_redirect_witness :
    (buildSendArgsSync
        { verify := PyVal.pyInt 1, timeout := PyVal.pyInt 300,
          cert := PyVal.pyInt 0, dataBlockSize := 4096 }
        { method := "GET", url := "u", headers := [],
          data := PyVal.pyInt 0, files := PyVal.pyInt 0 } []
      = some { method := "GET", url := "u", headers := [],
               data := PyVal.pyInt 0, files := PyVal.pyInt 0,
               verify := PyVal.pyInt 1, timeout := PyVal.pyInt 300,
               cert := PyVal.pyInt 0, allowRedirects := false, extra := [] })
    ∧ SendCallArgs.allowRedirects
        { method := "GET", url := "u", headers := [],
          data := PyVal.pyInt 0, files := PyVal.pyInt 0,
          verify := PyVal.pyInt 1, timeout := PyVal.pyInt 300,
          cert := PyVal.pyInt 0, allowRedirects := false, extra := [] }
      = false :=
  ⟨rfl,
    (c6_no_auto_redirect
      { verify := PyVal.pyInt 1, timeout := PyVal.pyInt 300,
        cert := PyVal.pyInt 0, dataBlockSize := 4096 }
      { method := "GET", url := "u", headers := [],
        data := PyVal.pyInt 0, files := PyVal.pyInt 0 } []
      { method := "GET", url := "u", headers := [],
        data := PyVal.pyInt 0, files := PyVal.pyInt 0,
        verify := PyVal.pyInt 1, timeout := PyVal.pyInt 300,
        cert := PyVal.pyInt 0, allowRedirects := false, extra := [] }
      { statusCode := 302, respHeaders := [("location", "elsewhere")],
        reason := "Found" }
      rfl).1⟩

/-- C7: the direct, asyncio and trio `send` implementations classify
identical low-level failures identically: the three transcribed handler
chains agree on every exception, and the three `send` cores raise the
same error on the same failing session call. -/
theorem c7_adapters_classify_identically (e : LowExc) (cfg : ConnectionCfg)
    (req : HttpReq) (kwargs : Kwargs) :
    classifySendSync e = classifySendAsyncio e
    ∧ classifySendSync e = classifySendTrio e
    ∧ sendCoreSync cfg req kwargs (fun _ => SessionOutcome.exc e)
        = sendCoreAsyncio cfg req kwargs (fun _ => SessionOutcome.exc e)
    ∧ sendCoreSync cfg req kwargs (fun _ => SessionOutcome.exc e)
        = sendCoreTrio cfg req kwargs (fun _ => SessionOutcome.exc e) :=
  ⟨rfl, rfl, rfl, rfl⟩

/-- C8: on a transport that owns its session and has opened it, the
first `close()` releases the session exactly once and clears the
ownership flag; a second `close()` is a no-op that leaves the state
unchanged and releases nothing. -/
theorem c8_close_twice_is_safe (t : RTransport)
    (h1 : t.sessionOwner = true) (h2 : t.session = some ()) :
    closeTransport t
      = Except.ok ({ session := none, sessionOwner := false }, 1)
    ∧ closeTransport { session := none, sessionOwner := false }
      = Except.ok (({ session := none, sessionOwner := false } : RTransport), 0) := by
  constructor
  · unfold closeTransport
    rw [h1, h2]
    rfl
  · rfl

/-- C8 witness: `c8_close_twice_is_safe` at the freshly opened
owner-transport. -/
theorem c8_close_twice_is_safe_witness :
    closeTransport { session := some (), sessionOwner := true }
      = Except.ok ({ session := none, sessionOwner := false }, 1)
    ∧ closeTransport { session := none, sessionOwner := false }
      = Except.ok (({ session := none, sessionOwner := false } : RTransport), 0) :=
  c8_close_twice_is_safe { session := some (), sessionOwner := true } rfl rfl

/-- C9: once `close()` has completed on a transport that owned its
session, the transport never acquires a session again: `open()` is a
no-op that creates no session (the ownership flag was cleared), and a
subsequent `send()` fails with `AttributeError` on the absent session
instead of transparently reopening. -/
theorem c9_closed_transport_never_reacquires (t t1 : RTransport) (n : Nat)
    (h1 : t.sessionOwner = true) (h2 : t.session = some ())
    (h3 : closeTransport t = Except.ok (t1, n)) :
    openTransport t1 = (t1, false)
    ∧ sendAcquireSession t1 = Except.error PyFault.attributeError := by
  have hc : closeTransport t
      = Except.ok (({ session := none, sessionOwner := false } : RTransport), 1) := by
    unfold closeTransport
    rw [h1, h2]
    rfl
  rw [hc] at h3
  have h4 : t1 = { session := none, sessionOwner := false } := by
    have := Except.ok.inj h3
    exact (Prod.mk.injEq _ _ _ _ ▸ this).1.symm
  subst h4
  exact ⟨rfl, rfl⟩

/-- C9 witness: `c9_closed_transport_never_reacquires` at the opened
owner-transport and the state its `close()` computes. -/
theorem c9_closed_transport_never_reacquires_witness :
    openTransport { session := none, sessionOwner := false }
      = ({ session := none, sessionOwner := false }, false)
    ∧ sendAcquireSession { session := none, sessionOwner := false }
      = Except.error PyFault.attributeError :=
  c9_closed_transport_never_reacquires
    { session := some (), sessionOwner := true }
    { session := none, sessionOwner := false } 1 rfl rfl rfl

/-- C10: on a transport constructed with default kwargs (no session
supplied, ownership defaulted to true) on which `open()` was never
called, `close()` raises `AttributeError` on the absent (`None`)
session instead of being a safe no-op. -/
theorem c10_close_before_open_raises :
    closeTransport (initTransport none none)
      = Except.error PyFault.attributeError :=
  rfl

end AzureCoreTransport
